import Mathlib

/-!
Verification of the sanitization / restricted execution / retry-self-correction /
result-extraction core of the pandas-ai package, shallowly embedded from
src/pandasai/__init__.py (class PandasAI).

Statements of generated scripts are embedded at the granularity of the Python
ast nodes the code inspects (Import, ImportFrom, Assign targets); everything the
code never looks inside (expressions, other statement kinds) is kept as opaque
text.  External collaborators (the ast parser, the astor unparser, the exec and
eval builtins, the LLM client, the dependency loader) are fields of an Oracle
record, so the control flow of the core is fully explicit while the
collaborators stay abstract.
-/

namespace PandasAI

/-- Runtime values living in the execution environment (abstract). -/
inductive Value where
  | int : Int → Value
  | str : String → Value
  | obj : String → Value
  | pynone
deriving DecidableEq, Repr

/-- Errors raised by the core: parse failures (SyntaxError), the package's
BadImportError (the spec's DisallowedImportError), and arbitrary runtime
exceptions raised by script execution. -/
inductive PyError where
  | syntaxError : String → PyError
  | badImport : String → PyError
  | runtime : String → PyError
deriving DecidableEq, Repr

instance {ε α : Type} [DecidableEq ε] [DecidableEq α] : DecidableEq (Except ε α) :=
  fun a b =>
    match a, b with
    | .ok x, .ok y =>
      match decEq x y with
      | isTrue h => isTrue (h ▸ rfl)
      | isFalse h => isFalse (fun he => h (Except.ok.inj he))
    | .error x, .error y =>
      match decEq x y with
      | isTrue h => isTrue (h ▸ rfl)
      | isFalse h => isFalse (fun he => h (Except.error.inj he))
    | .ok _, .error _ => isFalse (fun he => Except.noConfusion he)
    | .error _, .ok _ => isFalse (fun he => Except.noConfusion he)

/-- One name of a Python import statement: ast.alias with name and asname. -/
structure ImportAlias where
  name : String
  asname : Option String
deriving DecidableEq, Repr

/-- An assignment target as far as the code inspects it: either an ast.Name
with its identifier, or any other target kind (attribute, subscript, tuple...)
kept as opaque text. -/
inductive Target where
  | name : String → Target
  | nonName : String → Target
deriving DecidableEq, Repr

/-- Top-level statements of a generated script, at the granularity used by
PandasAI._clean_code: ast.Import, ast.ImportFrom, ast.Assign (first target,
remaining targets, right-hand side as opaque text), ast.AugAssign, and
everything else as opaque text.  ast.Assign always has at least one target,
hence the separated first target. -/
inductive Stmt where
  | imprt : List ImportAlias → Stmt
  | importFrom : String → List ImportAlias → Stmt
  | assign : Target → List Target → String → Stmt
  | augAssign : String → String → Stmt
  | other : String → Stmt
deriving DecidableEq, Repr

/-- One entry of PandasAI._additional_dependencies: the dict
with keys module / name / alias built by _check_imports. -/
structure Dep where
  module : String
  name : String
  aliasName : String
deriving DecidableEq, Repr

/-- Modelled from the spec: pandasai.constants is not under src/; the spec
describes a process-wide, read-only library whitelist (allowedLibraries,
§3 SanitizationPolicy) of data-science libraries.  A representative concrete
value is used; theorems that do not depend on the concrete contents quantify
over the caller-supplied custom whitelist instead. -/
def WHITELISTED_LIBRARIES : List String :=
  ["numpy", "matplotlib", "seaborn", "sklearn", "scipy", "statsmodels", "datetime"]

/-- Modelled from the spec: pandasai.constants is not under src/; the spec
describes a builtin-function whitelist (allowedBuiltins, §3), which must
contain the console-print builtin since §4.4's result extractor recognizes
calls to it and §8 expects scripts to be able to print.  A representative
concrete value is used. -/
def WHITELISTED_BUILTINS : List String :=
  ["abs", "dict", "int", "len", "list", "max", "min", "print",
   "range", "round", "set", "str", "sum", "tuple", "zip"]

/-- Models module.split(".")[0]: the first dot-separated component. -/
def libraryOf (module : String) : String :=
  ⟨module.data.takeWhile (fun c => c ≠ '.')⟩

/-- Models the body of PandasAI._check_imports (lines 408-444) once the module
name is extracted: the method first resets _additional_dependencies to [],
then returns for the dataset library pandas, appends one entry per imported
alias for a whitelisted module, raises BadImportError for a library that is
also not named like a whitelisted builtin, and silently falls through
otherwise.  Returns the new value of _additional_dependencies together with
the raised error, if any. -/
def checkModule (customWhitelist : List String) (module : String)
    (names : List ImportAlias) : List Dep × Option PyError :=
  if libraryOf module = "pandas" then ([], Option.none)
  else if libraryOf module ∈ WHITELISTED_LIBRARIES ++ customWhitelist then
    (names.map (fun a => ⟨module, a.name, a.asname.getD a.name⟩), Option.none)
  else if libraryOf module ∉ WHITELISTED_BUILTINS then
    ([], some (.badImport (libraryOf module)))
  else ([], Option.none)

/-- Models PandasAI._check_imports (lines 408-444) on an import node: for
ast.Import the module is node.names[0].name, for ast.ImportFrom it is
node.module. -/
def check_imports (customWhitelist : List String) : Stmt → List Dep × Option PyError
  | .imprt names => checkModule customWhitelist ((names.headD ⟨"", Option.none⟩).name) names
  | .importFrom module names => checkModule customWhitelist module names
  | _ => ([], Option.none)

/-- Models re.match(r"df\d{0,2}$", s) on an identifier: s starts with "df"
and the rest is at most two characters, all digits.  (Python identifiers
contain no newline, so the end-of-string anchor is exact.) -/
def matchesDfPattern (s : String) : Bool :=
  ("df".data).isPrefixOf s.data
    && decide ((s.data.drop 2).length ≤ 2)
    && (s.data.drop 2).all Char.isDigit

/-- Models PandasAI._is_df_overwrite (lines 446-461): an ast.Assign whose
first target is an ast.Name whose id matches the reserved pattern. -/
def is_df_overwrite : Stmt → Bool
  | .assign (.name id) _ _ => matchesDfPattern id
  | _ => false

/-- Is the statement an ast.Import or ast.ImportFrom node? -/
def isImportStmt : Stmt → Bool
  | .imprt _ => true
  | .importFrom _ _ => true
  | _ => false

/-- Models the statement loop of PandasAI._clean_code (lines 476-486),
threading the _additional_dependencies instance field: import nodes are
passed to _check_imports and dropped, reserved-name assignments are dropped,
everything else is kept in order.  On a BadImportError the Python exception
propagates (the new body is discarded) but the field mutation done so far
persists; the first component is the final value of the field in all cases. -/
def clean_code_stmts (customWhitelist : List String) (deps : List Dep) :
    List Stmt → List Dep × Except PyError (List Stmt)
  | [] => (deps, .ok [])
  | node :: rest =>
    if isImportStmt node then
      let r := check_imports customWhitelist node
      match r.2 with
      | some e => (r.1, .error e)
      | Option.none => clean_code_stmts customWhitelist r.1 rest
    else if is_df_overwrite node then clean_code_stmts customWhitelist deps rest
    else
      let r := clean_code_stmts customWhitelist deps rest
      (r.1, r.2.map (fun body => node :: body))

/-- The execution environment: the dict passed as globals to exec/eval.
Later entries shadow earlier ones, as in a Python dict update. -/
abbrev Env : Type := List (String × Value)

/-- Dict lookup: the last binding of a key wins. -/
def envGet (env : Env) (k : String) : Option Value :=
  (List.reverse env).lookup k

/-- The _original_instructions dict captured by run() and read by the
correction prompts; previews are kept as opaque text. -/
structure OriginalInstructions where
  question : String
  df_head : String
  num_rows : Nat
  num_columns : Nat
deriving DecidableEq, Repr

/-- The two correction prompts of the retry loop: CorrectErrorPrompt
(single dataframe; lines 574-581) and CorrectMultipleDataframesErrorPrompt
(lines 563-571), with the constructor arguments the loop passes. -/
inductive Prompt where
  | correctError (code : String) (error_returned : PyError) (question : String)
      (df_head : String) (num_rows : Nat) (num_columns : Nat)
  | correctMultipleDataframesError (code : String) (error_returned : PyError)
      (question : String) (df_head : String)
deriving DecidableEq, Repr

/-- The code field of a correction prompt: the script text the prompt shows
the code-generation collaborator as the program to fix. -/
def promptCode : Prompt → String
  | .correctError c _ _ _ _ _ => c
  | .correctMultipleDataframesError c _ _ _ => c

/-- The error field of a correction prompt. -/
def promptError : Prompt → PyError
  | .correctError _ e _ _ _ _ => e
  | .correctMultipleDataframesError _ e _ _ => e

/-- The question field of a correction prompt. -/
def promptQuestion : Prompt → String
  | .correctError _ _ q _ _ _ => q
  | .correctMultipleDataframesError _ _ q _ => q

/-- The data_frame argument of run_code: a single dataframe or a list. -/
inductive DataInput where
  | single : Value → DataInput
  | multiple : List Value → DataInput
deriving DecidableEq, Repr

/-- Does the data_frame argument satisfy isinstance(data_frame, list)? -/
def isMultiple : DataInput → Bool
  | .single _ => false
  | .multiple _ => true

/-- External collaborators of the core, as consumed by run_code: the ast
parser, the astor unparser (composed with the final .strip()), the exec
builtin (returning the mutated globals dict, the text written to the
redirected stdout, and the raised exception if any), the eval builtin, the
LLM code generator, and the dependency loader resolving one
_additional_dependencies entry to the object bound under its alias
(import_dependency plus the getattr fallback, lines 530-532). -/
structure Oracle where
  parse : String → Except PyError (List Stmt)
  toSource : List Stmt → String
  exec : String → Env → Env × String × Option PyError
  eval : String → Env → Except PyError Value
  generate_code : Prompt → String
  loader : Dep → Value

/-- Models the environment construction of run_code (lines 527-546): the pd
binding, one binding per approved dependency, the whitelisted __builtins__
dict, then the dataset bindings (df for a single dataframe, df1..dfN
1-indexed for a list). -/
def buildEnvironment (loader : Dep → Value) (deps : List Dep) (data : DataInput) : Env :=
  let base : Env :=
    [("pd", Value.obj "pandas")]
      ++ deps.map (fun d => (d.aliasName, loader d))
      ++ [("__builtins__", Value.obj "whitelisted_builtins")]
  match data with
  | .single df => base ++ [("df", df)]
  | .multiple dfs =>
      base ++ dfs.enum.map (fun p => ("df" ++ toString (p.1 + 1), p.2))

/-- Models the construction of the error-correcting instruction
(lines 563-581): the multiple-dataframes prompt omits the row and column
counts; both receive the code variable, the caught exception and the
_original_instructions fields. -/
def mkCorrectionPrompt (multiple : Bool) (instr : OriginalInstructions)
    (code : String) (e : PyError) : Prompt :=
  if multiple then
    .correctMultipleDataframesError code e instr.question instr.df_head
  else
    .correctError code e instr.question instr.df_head instr.num_rows instr.num_columns

/-- The mutable locals of the retry loop (lines 549-585), plus ghost logs:
corrections records, in order, every prompt passed to generate_code, and
execLog records, in order, every (script text, globals dict) pair passed to
the exec builtin. -/
structure LoopState where
  code : String
  code_to_run : String
  environment : Env
  captured : String
  corrections : List Prompt
  execLog : List (String × Env)
deriving DecidableEq, Repr

/-- Models the retry loop of run_code (lines 549-585):
count = 0; while count < max_retries: try exec / except.  The fuel argument
is max_retries - count.  The second component is the exception re-raised on
the error-correction-disabled path (line 559); it is none when the loop
exits normally, by success or by exhausting the budget. -/
def runLoop (O : Oracle) (instr : OriginalInstructions) (multiple : Bool)
    (useErrorCorrection : Bool) : Nat → LoopState → LoopState × Option PyError
  | 0, st => (st, Option.none)
  | fuel + 1, st =>
    let r := O.exec st.code_to_run st.environment
    let st1 : LoopState :=
      { st with environment := r.1, captured := st.captured ++ r.2.1,
                execLog := st.execLog ++ [(st.code_to_run, st.environment)] }
    match r.2.2 with
    | Option.none => ({ st1 with code := st.code_to_run }, Option.none)
    | some e =>
      if useErrorCorrection then
        let p := mkCorrectionPrompt multiple instr st.code e
        runLoop O instr multiple useErrorCorrection fuel
          { st1 with code_to_run := O.generate_code p,
                     corrections := st1.corrections ++ [p] }
      else (st1, some e)

/-- Models Python str.strip() on the whitespace the code can encounter. -/
def pyStrip (s : String) : String :=
  ⟨((s.data.dropWhile Char.isWhitespace).reverse.dropWhile Char.isWhitespace).reverse⟩

/-- Models str.split("\n") (the splitting in line 590): character-level
split, never returning an empty list. -/
def splitNl : List Char → List (List Char)
  | [] => [[]]
  | c :: rest =>
    let r := splitNl rest
    if c = '\n' then [] :: r
    else
      match r with
      | [] => [[c]]
      | h :: t => (c :: h) :: t

/-- Models lines 590-591: code.strip().split("\n"), take the last line and
strip it. -/
def lastLine (code : String) : String :=
  pyStrip ⟨((splitNl (pyStrip code).data).getLastD [])⟩

/-- Models re.match(r"^print\((.*)\)$", line) (line 593): the line starts
with "print(" and ends with ")", and group 1 is everything in between (the
greedy .* backtracks exactly one closing parenthesis; the line contains no
newline, so . matches every character). -/
def matchPrintCall (line : String) : Option String :=
  if ("print(".data).isPrefixOf line.data && ([')']).isSuffixOf line.data
      && decide (7 ≤ line.data.length) then
    some ⟨(line.data.drop 6).dropLast⟩
  else Option.none

/-- Result of run_code, with ghost observation fields: result is the returned
value or the propagated exception; corrections and execLog are the ghost logs
of the loop; deps is the final value of _additional_dependencies; captured is
the content of the redirected-stdout buffer. -/
structure RunCodeResult where
  result : Except PyError Value
  corrections : List Prompt
  execLog : List (String × Env)
  deps : List Dep
  captured : String
deriving Repr

/-- Models PandasAI.run_code (lines 489-600) with _save_charts = False (the
chart post-processing helper is an external collaborator, out of the spec's
scope): clean the code once, build the environment once, run the retry loop,
then extract the result from the last line of the code variable, unwrapping a
print call and falling back to the captured output if eval raises. -/
def run_code (O : Oracle) (instr : OriginalInstructions)
    (customWhitelist : List String) (deps0 : List Dep) (max_retries : Nat)
    (code : String) (data_frame : DataInput)
    (use_error_correction_framework : Bool) : RunCodeResult :=
  let multiple := isMultiple data_frame
  match O.parse code with
  | .error e =>
      { result := .error e, corrections := [], execLog := [], deps := deps0, captured := "" }
  | .ok tree =>
    match clean_code_stmts customWhitelist deps0 tree with
    | (deps, .error e) =>
        { result := .error e, corrections := [], execLog := [], deps := deps, captured := "" }
    | (deps, .ok body) =>
      let code_to_run := O.toSource body
      let environment := buildEnvironment O.loader deps data_frame
      let lr := runLoop O instr multiple use_error_correction_framework max_retries
        { code := code, code_to_run := code_to_run, environment := environment,
          captured := "", corrections := [], execLog := [] }
      let line0 := lastLine lr.1.code
      let last_line := (matchPrintCall line0).getD line0
      { result :=
          match lr.2 with
          | some e => .error e
          | Option.none =>
            match O.eval last_line lr.1.environment with
            | .ok v => .ok v
            | .error _ => .ok (.str lr.1.captured),
        corrections := lr.1.corrections, execLog := lr.1.execLog,
        deps := deps, captured := lr.1.captured }

/-- Models PandasAI._clean_code (lines 463-487) at the string level: parse,
filter / record dependencies, unparse; also returns the new value of
_additional_dependencies on success. -/
def clean_code (O : Oracle) (customWhitelist : List String) (deps : List Dep)
    (code : String) : Except PyError (String × List Dep) :=
  match O.parse code with
  | .error e => .error e
  | .ok tree =>
    match clean_code_stmts customWhitelist deps tree with
    | (_, .error e) => .error e
    | (deps', .ok body) => .ok (O.toSource body, deps')

/-! Concrete collaborator instances used by witnesses and counterexamples.
The scripts involved are tiny, so the parser, unparser, executor and
evaluator can be given as explicit finite case analyses that behave as the
real Python collaborators do on exactly these inputs. -/

/-- Splits a character list at the first " + " separator, as an infix
addition is written. -/
def splitPlus : List Char → Option (List Char × List Char)
  | [] => Option.none
  | ' ' :: '+' :: ' ' :: rest => some ([], rest)
  | c :: rest => (splitPlus rest).map (fun p => (c :: p.1, p.2))

/-- Concrete stand-in for the Python eval builtin on the expression fragment
the claims exercise: a bare variable, or the sum of two integer variables
written "a + b"; anything else raises (NameError / SyntaxError collapsed
into a runtime error). -/
def miniEval (expr : String) (env : Env) : Except PyError Value :=
  match splitPlus expr.data with
  | some (a, b) =>
    match envGet env ⟨a⟩, envGet env ⟨b⟩ with
    | some (.int m), some (.int n) => .ok (.int (m + n))
    | _, _ => .error (.runtime "NameError")
  | Option.none =>
    match envGet env expr with
    | some v => .ok v
    | Option.none => .error (.runtime "NameError")

/-- Parser of the failing-run scenario: the script "df.foo()" parses to one
opaque statement; everything else is a parse failure. -/
def cxParse : String → Except PyError (List Stmt) := fun s =>
  if s = "df.foo()" then .ok [.other "df.foo()"]
  else .error (.syntaxError "invalid syntax")

/-- Unparser of the concrete scenarios: a single opaque statement is its own
source text; other statement lists are irrelevant to the scenarios. -/
def cxToSource : List Stmt → String
  | [.other s] => s
  | _ => ""

/-- Executor of the failing-run scenario: every execution raises; executing
"df.foo()" first writes a new binding into the globals dict (a partial
effect of the failing script), any other script fails without effect. -/
def cxExec : String → Env → Env × String × Option PyError := fun s env =>
  if s = "df.foo()" then
    (env ++ [("poison", Value.int 666)], "", some (.runtime "AttributeError"))
  else (env, "", some (.runtime "boom"))

/-- Code generator of the failing-run scenario: every correction request is
answered with a replacement script that begins with a disallowed import. -/
def cxGenerate : Prompt → String := fun _ => "import os"

/-- Dependency loader of the concrete scenarios. -/
def cxLoader : Dep → Value := fun d => .obj d.module

/-- Original instructions of the concrete scenarios. -/
def cxInstr : OriginalInstructions := ⟨"q", "head", 10, 3⟩

/-- The oracle of the failing-run scenario. -/
def cxO : Oracle :=
  { parse := cxParse, toSource := cxToSource, exec := cxExec,
    eval := miniEval, generate_code := cxGenerate, loader := cxLoader }

/-- Parser of the successful-run scenario: the script "SRC" parses to three
opaque statements. -/
def okParse : String → Except PyError (List Stmt) := fun s =>
  if s = "SRC" then .ok [.other "x = 2", .other "y = 3", .other "print(x + y)"]
  else .error (.syntaxError "invalid syntax")

/-- Unparser of the successful-run scenario. -/
def okToSource : List Stmt → String := fun _ => "x = 2\ny = 3\nprint(x + y)"

/-- Executor of the successful-run scenario: running the cleaned script binds
x and y, prints the answer, and raises nothing. -/
def okExec : String → Env → Env × String × Option PyError := fun s env =>
  if s = "x = 2\ny = 3\nprint(x + y)" then
    (env ++ [("x", Value.int 2), ("y", Value.int 3)], "5\n", Option.none)
  else (env, "", some (.runtime "boom"))

/-- The oracle of the successful-run scenario. -/
def okO : Oracle :=
  { parse := okParse, toSource := okToSource, exec := okExec,
    eval := miniEval, generate_code := cxGenerate, loader := cxLoader }

/-! Helper definitions for the theorems. -/

/-- The library component a statement imports, if it is an import node:
names[0].name for ast.Import, module for ast.ImportFrom, first
dot-component in both cases. -/
def importLib : Stmt → Option String
  | .imprt names => some (libraryOf (names.headD ⟨"", Option.none⟩).name)
  | .importFrom m _ => some (libraryOf m)
  | _ => Option.none

/-- Decides whether a statement is an import of a library that is neither
pandas, nor whitelisted, nor caller-whitelisted, nor named like a
whitelisted builtin: exactly the imports _check_imports raises on. -/
def offendingImport (customWhitelist : List String) (node : Stmt) : Bool :=
  match importLib node with
  | some lib =>
      decide (lib ≠ "pandas") && decide (lib ∉ WHITELISTED_LIBRARIES ++ customWhitelist)
        && decide (lib ∉ WHITELISTED_BUILTINS)
  | Option.none => false

/-- The value the _additional_dependencies field ends up with after a
successful sanitization pass: the contribution of the last import statement
of the script, or the previous value when the script has no imports. -/
def lastImportDeps (customWhitelist : List String) (deps : List Dep) :
    List Stmt → List Dep
  | [] => deps
  | node :: rest =>
    if isImportStmt node then
      lastImportDeps customWhitelist (check_imports customWhitelist node).1 rest
    else lastImportDeps customWhitelist deps rest

/-- Does the first target of an assignment trigger _is_df_overwrite: a bare
name matching the reserved pattern? -/
def firstTargetReserved : Target → Bool
  | .name id => matchesDfPattern id
  | .nonName _ => false

/-! Lemmas about the sanitizer. -/

theorem string_empty_append (s : String) : "" ++ s = s := by
  apply String.ext
  simp [String.data_append]

/-- Sanitizing a statement list with no imports and no reserved-name
assignments changes nothing: neither the body nor the dependency field. -/
theorem clean_code_stmts_id (custom : List String) (deps : List Dep)
    (stmts : List Stmt)
    (h1 : ∀ s ∈ stmts, isImportStmt s = false)
    (h2 : ∀ s ∈ stmts, is_df_overwrite s = false) :
    clean_code_stmts custom deps stmts = (deps, .ok stmts) := by
  induction stmts with
  | nil => rfl
  | cons node rest ih =>
    have hn1 : isImportStmt node = false := h1 node (List.mem_cons_self _ _)
    have hn2 : is_df_overwrite node = false := h2 node (List.mem_cons_self _ _)
    have hr : clean_code_stmts custom deps rest = (deps, .ok rest) :=
      ih (fun s hs => h1 s (List.mem_cons_of_mem _ hs))
        (fun s hs => h2 s (List.mem_cons_of_mem _ hs))
    simp [clean_code_stmts, hn1, hn2, hr, Except.map]

/-! Lemmas about the retry loop. -/

/-- Relation between two consecutive exec calls of one run: the later call
received exactly the globals dict returned by the earlier call (no freshly
built context) and, as script, the raw generator output for the correction
prompt built from code0 and the earlier attempt's error (no sanitization of
the replacement). -/
def attemptLink (O : Oracle) (mult : Bool) (instr : OriginalInstructions)
    (code0 : String) (prev next : String × Env) : Prop :=
  next.2 = (O.exec prev.1 prev.2).1 ∧
  ∃ e, (O.exec prev.1 prev.2).2.2 = some e ∧
    next.1 = O.generate_code (mkCorrectionPrompt mult instr code0 e)

/-- Every adjacent pair of a newest-first exec log is linked. -/
def chainRev (O : Oracle) (mult : Bool) (instr : OriginalInstructions)
    (code0 : String) : List (String × Env) → Prop
  | [] => True
  | [_] => True
  | next :: prev :: rest =>
      attemptLink O mult instr code0 prev next ∧
      chainRev O mult instr code0 (prev :: rest)

/-- Specification of one correction request paired with the exec call it
reacted to: the prompt is built from the original code and exactly the error
that exec call raised. -/
def promptSpec (O : Oracle) (mult : Bool) (instr : OriginalInstructions)
    (code0 : String) (pr : Prompt × (String × Env)) : Prop :=
  ∃ e, (O.exec pr.2.1 pr.2.2).2.2 = some e ∧
    pr.1 = mkCorrectionPrompt mult instr code0 e

/-- Invariant of the retry loop relating the mutable locals to the ghost
logs. -/
def LoopInv (O : Oracle) (mult : Bool) (instr : OriginalInstructions)
    (code0 : String) (st : LoopState) : Prop :=
  st.code = code0 ∧
  chainRev O mult instr code0 st.execLog.reverse ∧
  (∀ prev, st.execLog.reverse.head? = some prev →
    st.environment = (O.exec prev.1 prev.2).1 ∧
    ∃ e, (O.exec prev.1 prev.2).2.2 = some e ∧
      st.code_to_run = O.generate_code (mkCorrectionPrompt mult instr code0 e)) ∧
  st.corrections.length = st.execLog.length ∧
  ∀ pr ∈ st.corrections.zip st.execLog, promptSpec O mult instr code0 pr

theorem runLoop_inv (O : Oracle) (mult : Bool) (instr : OriginalInstructions)
    (code0 : String) (ec : Bool) (fuel : Nat) (st : LoopState)
    (h : LoopInv O mult instr code0 st) :
    chainRev O mult instr code0 (runLoop O instr mult ec fuel st).1.execLog.reverse ∧
    ∀ pr ∈ (runLoop O instr mult ec fuel st).1.corrections.zip
        (runLoop O instr mult ec fuel st).1.execLog,
      promptSpec O mult instr code0 pr := by
  induction fuel generalizing st with
  | zero => exact ⟨h.2.1, h.2.2.2.2⟩
  | succ n ih =>
    obtain ⟨hcode, hchain, hhead, hlen, hzip⟩ := h
    -- facts about the state after appending the new exec-log entry
    have hchain' : chainRev O mult instr code0
        ((st.execLog ++ [(st.code_to_run, st.environment)]).reverse) := by
      rw [List.reverse_append, List.reverse_singleton, List.singleton_append]
      cases hrev : st.execLog.reverse with
      | nil => trivial
      | cons prev rest =>
        obtain ⟨henv, e, he, hctr⟩ := hhead prev (by rw [hrev]; rfl)
        refine ⟨⟨henv, e, he, hctr⟩, ?_⟩
        rw [← hrev]
        exact hchain
    have hzipsame : st.corrections.zip
        (st.execLog ++ [(st.code_to_run, st.environment)]) =
        st.corrections.zip st.execLog := by
      rw [← List.append_nil st.corrections, List.zip_append hlen]
      simp
    rw [runLoop]
    cases hr : (O.exec st.code_to_run st.environment).2.2 with
    | none =>
      simp only [hr]
      constructor
      · exact hchain'
      · intro pr hpr
        have hpr' : pr ∈ st.corrections.zip
            (st.execLog ++ [(st.code_to_run, st.environment)]) := hpr
        rw [hzipsame] at hpr'
        exact hzip pr hpr'
    | some e =>
      simp only [hr]
      split
      · apply ih
        refine ⟨hcode, hchain', ?_, ?_, ?_⟩
        · intro prev hprev
          rw [List.reverse_append, List.reverse_singleton, List.singleton_append,
            List.head?_cons] at hprev
          have hx := (Option.some.inj hprev).symm
          subst hx
          refine ⟨rfl, e, hr, ?_⟩
          rw [hcode]
        · simp [hlen]
        · intro pr hpr
          have hpr' : pr ∈ (st.corrections ++ [mkCorrectionPrompt mult instr st.code e]).zip
              (st.execLog ++ [(st.code_to_run, st.environment)]) := hpr
          rw [List.zip_append hlen] at hpr'
          rcases List.mem_append.mp hpr' with hold | hnew
          · exact hzip pr hold
          · simp only [List.zip_cons_cons, List.zip_nil_right, List.mem_singleton] at hnew
            subst hnew
            exact ⟨e, hr, by rw [hcode]⟩
      · constructor
        · exact hchain'
        · intro pr hpr
          have hpr' : pr ∈ st.corrections.zip
              (st.execLog ++ [(st.code_to_run, st.environment)]) := hpr
          rw [hzipsame] at hpr'
          exact hzip pr hpr'

/-- With error correction enabled the loop never re-raises: it exits by
success or by silently exhausting the budget. -/
theorem runLoop_no_raise (O : Oracle) (instr : OriginalInstructions)
    (mult : Bool) (fuel : Nat) (st : LoopState) :
    (runLoop O instr mult true fuel st).2 = Option.none := by
  induction fuel generalizing st with
  | zero => rfl
  | succ n ih =>
    rw [runLoop]
    cases hr : (O.exec st.code_to_run st.environment).2.2 with
    | none => simp [hr]
    | some e => simp [hr, ih]

/-- Each loop iteration performs at most one correction request, so the
budget bounds the number of requests. -/
theorem runLoop_corrections_length (O : Oracle) (instr : OriginalInstructions)
    (mult ec : Bool) (fuel : Nat) (st : LoopState) :
    (runLoop O instr mult ec fuel st).1.corrections.length ≤
      st.corrections.length + fuel := by
  induction fuel generalizing st with
  | zero => exact Nat.le_add_right _ _
  | succ n ih =>
    rw [runLoop]
    cases hr : (O.exec st.code_to_run st.environment).2.2 with
    | none => exact Nat.le_add_right _ _
    | some e =>
      simp only [hr]
      split
      · refine le_trans (ih _) ?_
        simp only [List.length_append, List.length_singleton]
        omega
      · exact Nat.le_add_right _ _

/-- Invariant of a whole run_code call: the exec log is chained (each later
exec call received the carried-forward environment and the raw generator
output), and each correction prompt pairs with the exec call it reacted to,
carrying the original code and that call's error. -/
theorem run_code_inv (O : Oracle) (instr : OriginalInstructions)
    (custom : List String) (deps0 : List Dep) (max_retries : Nat) (code : String)
    (df : DataInput) (ec : Bool) :
    chainRev O (isMultiple df) instr code
      (run_code O instr custom deps0 max_retries code df ec).execLog.reverse ∧
    ∀ pr ∈ (run_code O instr custom deps0 max_retries code df ec).corrections.zip
        (run_code O instr custom deps0 max_retries code df ec).execLog,
      promptSpec O (isMultiple df) instr code pr := by
  cases hp : O.parse code with
  | error e =>
    simp only [run_code, hp]
    exact ⟨trivial, by intro pr hpr; simp at hpr⟩
  | ok tree =>
    rcases hres : clean_code_stmts custom deps0 tree with ⟨deps, res⟩
    cases res with
    | error e =>
      simp only [run_code, hp, hres]
      exact ⟨trivial, by intro pr hpr; simp at hpr⟩
    | ok body =>
      simp only [run_code, hp, hres]
      refine runLoop_inv O (isMultiple df) instr code ec max_retries _ ?_
      refine ⟨rfl, trivial, ?_, rfl, ?_⟩
      · intro prev hprev
        simp at hprev
      · intro pr hpr
        simp at hpr

/-- Helper: the extraction step at the end of run_code always produces a
value, whatever the eval collaborator does: the value itself, or the
captured output as fallback. -/
theorem extract_ok (O : Oracle) (line : String) (env : Env) (cap : String) :
    ∃ v, (match O.eval line env with
          | Except.ok w => Except.ok w
          | Except.error _ => Except.ok (Value.str cap) : Except PyError Value) =
      Except.ok v := by
  cases O.eval line env with
  | ok w => exact ⟨w, rfl⟩
  | error e => exact ⟨Value.str cap, rfl⟩

/-! Unfolding lemmas for the sanitizer loop. -/

theorem clean_cons_import_error (custom : List String) (deps : List Dep)
    (node : Stmt) (rest : List Stmt) (e : PyError)
    (hi : isImportStmt node = true)
    (he : (check_imports custom node).2 = some e) :
    clean_code_stmts custom deps (node :: rest) =
      ((check_imports custom node).1, .error e) := by
  simp [clean_code_stmts, hi, he]

theorem clean_cons_import_ok (custom : List String) (deps : List Dep)
    (node : Stmt) (rest : List Stmt)
    (hi : isImportStmt node = true)
    (he : (check_imports custom node).2 = Option.none) :
    clean_code_stmts custom deps (node :: rest) =
      clean_code_stmts custom (check_imports custom node).1 rest := by
  simp [clean_code_stmts, hi, he]

theorem clean_cons_drop (custom : List String) (deps : List Dep)
    (node : Stmt) (rest : List Stmt)
    (hi : isImportStmt node = false) (hd : is_df_overwrite node = true) :
    clean_code_stmts custom deps (node :: rest) =
      clean_code_stmts custom deps rest := by
  simp [clean_code_stmts, hi, hd]

theorem clean_cons_keep (custom : List String) (deps : List Dep)
    (node : Stmt) (rest : List Stmt)
    (hi : isImportStmt node = false) (hd : is_df_overwrite node = false) :
    clean_code_stmts custom deps (node :: rest) =
      ((clean_code_stmts custom deps rest).1,
        (clean_code_stmts custom deps rest).2.map (fun body => node :: body)) := by
  simp [clean_code_stmts, hi, hd]

/-- The module check reaches its raising branch exactly on a library that is
not pandas, not whitelisted, not caller-whitelisted and not named like a
whitelisted builtin. -/
theorem checkModule_offending (custom : List String) (module : String)
    (names : List ImportAlias) (lib : String)
    (hl : libraryOf module = lib)
    (h1 : lib ≠ "pandas")
    (h2 : lib ∉ WHITELISTED_LIBRARIES ++ custom)
    (h3 : lib ∉ WHITELISTED_BUILTINS) :
    checkModule custom module names = ([], some (.badImport lib)) := by
  subst hl
  unfold checkModule
  rw [if_neg h1, if_neg h2, if_pos h3]

/-- Inversion: when the module check raises, the raised library satisfies
all four non-membership conditions and the dependency field was left
cleared. -/
theorem checkModule_error_inv (custom : List String) (module : String)
    (names : List ImportAlias) (e : PyError)
    (he : (checkModule custom module names).2 = some e) :
    ∃ lib, e = .badImport lib ∧ lib ≠ "pandas" ∧
      lib ∉ WHITELISTED_LIBRARIES ++ custom ∧ lib ∉ WHITELISTED_BUILTINS ∧
      (checkModule custom module names).1 = [] := by
  unfold checkModule at he ⊢
  split_ifs at he ⊢ with h1 h2 h3
  exact ⟨libraryOf module, (Option.some.inj he).symm, h1, h2, h3, rfl⟩

theorem check_imports_error_inv (custom : List String) (node : Stmt) (e : PyError)
    (he : (check_imports custom node).2 = some e) :
    ∃ lib, e = .badImport lib ∧ lib ≠ "pandas" ∧
      lib ∉ WHITELISTED_LIBRARIES ++ custom ∧ lib ∉ WHITELISTED_BUILTINS ∧
      (check_imports custom node).1 = [] := by
  cases node with
  | imprt names => exact checkModule_error_inv custom _ names e he
  | importFrom m names => exact checkModule_error_inv custom m names e he
  | assign t ts rhs => simp [check_imports] at he
  | augAssign t rhs => simp [check_imports] at he
  | other s => simp [check_imports] at he

/-- Unpacking of the offending-import test. -/
theorem offendingImport_spec (custom : List String) (node : Stmt)
    (h : offendingImport custom node = true) :
    isImportStmt node = true ∧
    ∃ lib, importLib node = some lib ∧ lib ≠ "pandas" ∧
      lib ∉ WHITELISTED_LIBRARIES ++ custom ∧ lib ∉ WHITELISTED_BUILTINS := by
  cases node with
  | imprt names =>
    simp only [offendingImport, importLib, Bool.and_eq_true, decide_eq_true_eq] at h
    exact ⟨rfl, libraryOf ((names.headD ⟨"", Option.none⟩).name), rfl, h.1.1, h.1.2, h.2⟩
  | importFrom m names =>
    simp only [offendingImport, importLib, Bool.and_eq_true, decide_eq_true_eq] at h
    exact ⟨rfl, libraryOf m, rfl, h.1.1, h.1.2, h.2⟩
  | assign t ts rhs => simp [offendingImport, importLib] at h
  | augAssign t rhs => simp [offendingImport, importLib] at h
  | other s => simp [offendingImport, importLib] at h

/-! Claim theorems. -/

/-- C1 (counterexample): with error correction enabled and a first attempt
that fails after writing a partial binding "poison" into the globals dict,
the second exec call receives the raw replacement script "import os" — a
script whose sanitization raises BadImportError, so it cannot be any
sanitized script — together with the first attempt's mutated environment
rather than a freshly built one.  This refutes the claim that every failed
attempt's replacement is sanitized and given a fresh ExecutionContext. -/
theorem c1_counterexample :
    (run_code cxO cxInstr [] [] 3 "df.foo()" (.single (.obj "df")) true).execLog[1]? =
      some ("import os",
        buildEnvironment cxLoader [] (.single (.obj "df")) ++ [("poison", Value.int 666)]) ∧
    (clean_code_stmts [] [] [.imprt [⟨"os", Option.none⟩]]).2 =
      .error (.badImport "os") ∧
    buildEnvironment cxLoader [] (.single (.obj "df")) ++ [("poison", Value.int 666)] ≠
      buildEnvironment cxLoader [] (.single (.obj "df")) := by
  refine ⟨by decide, by decide, by decide⟩

/-- C1 (amended): sanitization runs once, before the retry loop, and the
environment is built once; every later exec call of a run receives exactly
the globals dict returned by the previous exec call (bindings of prior
failed attempts carry forward) and, as script, the raw output of the code
generator for the correction prompt — no re-sanitization, no fresh
context. -/
theorem c1_replacement_raw_and_env_carried (O : Oracle)
    (instr : OriginalInstructions) (custom : List String) (deps0 : List Dep)
    (max_retries : Nat) (code : String) (df : DataInput) (ec : Bool) :
    chainRev O (isMultiple df) instr code
      (run_code O instr custom deps0 max_retries code df ec).execLog.reverse :=
  (run_code_inv O instr custom deps0 max_retries code df ec).1

/-- C8 (counterexample): on the second failed attempt the script that just
failed is the replacement "import os", yet the correction request built for
it carries the original script "df.foo()" as its code field.  This refutes
the claim that every correction request receives the text of the script
that just failed. -/
theorem c8_counterexample :
    (run_code cxO cxInstr [] [] 3 "df.foo()" (.single (.obj "df")) true).corrections[1]? =
      some (.correctError "df.foo()" (.runtime "boom") "q" "head" 10 3) ∧
    ((run_code cxO cxInstr [] [] 3 "df.foo()" (.single (.obj "df")) true).execLog[1]?).map
        Prod.fst = some "import os" ∧
    promptCode (.correctError "df.foo()" (.runtime "boom") "q" "head" 10 3) ≠
      "import os" := by
  refine ⟨by decide, by decide, by decide⟩

/-- C8 (amended): the j-th correction request of a run is built from the
original script text passed to run_code (the code variable is only
reassigned on success, after which no further requests happen), the error
raised by the j-th exec call, and the original instructions — it does not
receive the regenerated script that just failed. -/
theorem c8_corrections_carry_original_code (O : Oracle)
    (instr : OriginalInstructions) (custom : List String) (deps0 : List Dep)
    (max_retries : Nat) (code : String) (df : DataInput) (ec : Bool)
    (j : Nat) (p : Prompt) (s : String) (env : Env)
    (hc : (run_code O instr custom deps0 max_retries code df ec).corrections[j]? = some p)
    (hx : (run_code O instr custom deps0 max_retries code df ec).execLog[j]? = some (s, env)) :
    ∃ e, (O.exec s env).2.2 = some e ∧
      p = mkCorrectionPrompt (isMultiple df) instr code e := by
  have hz : ((run_code O instr custom deps0 max_retries code df ec).corrections.zip
      (run_code O instr custom deps0 max_retries code df ec).execLog)[j]? =
      some (p, (s, env)) :=
    List.getElem?_zip_eq_some.mpr ⟨hc, hx⟩
  exact (run_code_inv O instr custom deps0 max_retries code df ec).2 _
    (List.getElem?_mem hz)

/-- C8 (witness): the amended theorem applied to the concrete failing run at
j = 1. -/
theorem c8_corrections_carry_original_code_witness :
    (run_code cxO cxInstr [] [] 3 "df.foo()" (.single (.obj "df")) true).corrections[1]? =
      some (.correctError "df.foo()" (.runtime "boom") "q" "head" 10 3) ∧
    (run_code cxO cxInstr [] [] 3 "df.foo()" (.single (.obj "df")) true).execLog[1]? =
      some ("import os",
        buildEnvironment cxLoader [] (.single (.obj "df")) ++ [("poison", Value.int 666)]) ∧
    ∃ e, (cxO.exec "import os"
        (buildEnvironment cxLoader [] (.single (.obj "df")) ++ [("poison", Value.int 666)])).2.2 =
          some e ∧
      Prompt.correctError "df.foo()" (.runtime "boom") "q" "head" 10 3 =
        mkCorrectionPrompt (isMultiple (.single (.obj "df"))) cxInstr "df.foo()" e :=
  ⟨by decide, by decide,
    c8_corrections_carry_original_code cxO cxInstr [] [] 3 "df.foo()"
      (.single (.obj "df")) true 1 _ _ _ (by decide) (by decide)⟩

/-- C4 (counterexample): with error correction enabled, a generated script
that fails to parse makes run_code propagate the SyntaxError immediately:
no correction request is issued and no execution is attempted.  This refutes
the claim that a parse failure triggers a correction request rather than
propagating. -/
theorem c4_counterexample :
    (run_code cxO cxInstr [] [] 3 "x ==" (.single (.obj "df")) true).result =
      .error (.syntaxError "invalid syntax") ∧
    (run_code cxO cxInstr [] [] 3 "x ==" (.single (.obj "df")) true).corrections = [] := by
  exact ⟨rfl, rfl⟩

/-- C4 (amended): sanitization (and hence parsing) runs once, before the
retry loop, so a parse failure of the initial generated script propagates
to the caller unchanged even with error correction enabled, with zero
correction requests and zero execution attempts; only a replacement script
that fails to parse, raising inside exec, is caught by the loop. -/
theorem c4_parse_error_propagates (O : Oracle) (instr : OriginalInstructions)
    (custom : List String) (deps0 : List Dep) (max_retries : Nat)
    (code : String) (df : DataInput) (e : PyError)
    (hp : O.parse code = .error e) :
    run_code O instr custom deps0 max_retries code df true =
      { result := .error e, corrections := [], execLog := [],
        deps := deps0, captured := "" } := by
  simp only [run_code, hp]

/-- C4 (witness): the amended theorem applied to the concrete unparsable
script. -/
theorem c4_parse_error_propagates_witness :
    cxO.parse "x ==" = .error (.syntaxError "invalid syntax") ∧
    run_code cxO cxInstr [] [] 3 "x ==" (.single (.obj "df")) true =
      { result := .error (.syntaxError "invalid syntax"), corrections := [], execLog := [],
        deps := [], captured := "" } :=
  ⟨rfl, c4_parse_error_propagates cxO cxInstr [] [] 3 "x =="
    (.single (.obj "df")) (.syntaxError "invalid syntax") rfl⟩

/-- C5 (confirmed): with max_retries = 3, error correction enabled, a script
that sanitizes successfully and an executor that raises on every attempt,
run_code issues at most 3 correction requests and terminates with an
ordinary value (the silent-exhaustion exit): no exception escapes. -/
theorem c5_budget_bounds_corrections_and_exhaustion_is_silent (O : Oracle)
    (instr : OriginalInstructions) (custom : List String) (deps0 : List Dep)
    (code : String) (df : DataInput) (tree body : List Stmt) (deps : List Dep)
    (hp : O.parse code = .ok tree)
    (hcc : clean_code_stmts custom deps0 tree = (deps, .ok body))
    (hfail : ∀ s env, ((O.exec s env).2.2).isSome = true) :
    (run_code O instr custom deps0 3 code df true).corrections.length ≤ 3 ∧
    ∃ v, (run_code O instr custom deps0 3 code df true).result = .ok v := by
  simp only [run_code, hp, hcc]
  constructor
  · simpa using runLoop_corrections_length O instr (isMultiple df) true 3
      { code := code, code_to_run := O.toSource body,
        environment := buildEnvironment O.loader deps df,
        captured := "", corrections := [], execLog := [] }
  · rw [runLoop_no_raise]
    exact extract_ok O _ _ _

/-- C2 (counterexample): the script consisting of the single statement
"import print" imports a library that is neither pandas, nor in the library
whitelist, nor in the (empty) custom whitelist, yet sanitization raises
nothing: because "print" is named like a whitelisted builtin, the import is
silently dropped.  This refutes the claim that every such import raises
DisallowedImportError. -/
theorem c2_counterexample :
    clean_code_stmts [] [] [.imprt [⟨"print", Option.none⟩]] = ([], .ok []) ∧
    "print" ≠ "pandas" ∧
    "print" ∉ WHITELISTED_LIBRARIES ++ ([] : List String) ∧
    "print" ∈ WHITELISTED_BUILTINS := by
  refine ⟨by decide, by decide, by decide, by decide⟩

/-- C2 (amended): sanitization raises BadImportError naming an offending
library whenever the script contains a top-level import of a library that
is neither pandas, nor whitelisted, nor caller-whitelisted, nor named like
a whitelisted builtin; at the moment of the raise the dependency list is
empty, so no partial ApprovedDependency list is produced.  (Imports of
libraries named like whitelisted builtins are silently dropped without an
error.) -/
theorem c2_disallowed_import_raises_unless_builtin (custom : List String)
    (deps0 : List Dep) (stmts : List Stmt)
    (h : ∃ node ∈ stmts, offendingImport custom node = true) :
    ∃ lib, lib ≠ "pandas" ∧ lib ∉ WHITELISTED_LIBRARIES ++ custom ∧
      lib ∉ WHITELISTED_BUILTINS ∧
      clean_code_stmts custom deps0 stmts = ([], .error (.badImport lib)) := by
  induction stmts generalizing deps0 with
  | nil =>
    obtain ⟨node, hn, _⟩ := h
    exact absurd hn (List.not_mem_nil _)
  | cons node rest ih =>
    obtain ⟨node₀, hmem, hoff⟩ := h
    rcases List.mem_cons.mp hmem with heq | hrest
    · subst heq
      obtain ⟨hi, lib, hil, h1, h2, h3⟩ := offendingImport_spec custom node₀ hoff
      have herr : check_imports custom node₀ = ([], some (.badImport lib)) := by
        cases node₀ with
        | imprt names =>
          exact checkModule_offending custom _ names lib
            (Option.some.inj hil) h1 h2 h3
        | importFrom m names =>
          exact checkModule_offending custom m names lib
            (Option.some.inj hil) h1 h2 h3
        | assign t ts rhs => simp [isImportStmt] at hi
        | augAssign t rhs => simp [isImportStmt] at hi
        | other s => simp [isImportStmt] at hi
      refine ⟨lib, h1, h2, h3, ?_⟩
      rw [clean_cons_import_error custom deps0 node₀ rest _ hi (by rw [herr]), herr]
    · by_cases hi : isImportStmt node = true
      · cases he : (check_imports custom node).2 with
        | some e =>
          obtain ⟨lib, helib, h1, h2, h3, hnil⟩ :=
            check_imports_error_inv custom node e he
          subst helib
          refine ⟨lib, h1, h2, h3, ?_⟩
          rw [clean_cons_import_error custom deps0 node rest _ hi he, hnil]
        | none =>
          obtain ⟨lib, h1, h2, h3, hclean⟩ :=
            ih (check_imports custom node).1 ⟨node₀, hrest, hoff⟩
          refine ⟨lib, h1, h2, h3, ?_⟩
          rw [clean_cons_import_ok custom deps0 node rest hi he]
          exact hclean
      · have hi' : isImportStmt node = false := by simpa using hi
        by_cases hdx : is_df_overwrite node = true
        · obtain ⟨lib, h1, h2, h3, hclean⟩ := ih deps0 ⟨node₀, hrest, hoff⟩
          refine ⟨lib, h1, h2, h3, ?_⟩
          rw [clean_cons_drop custom deps0 node rest hi' hdx]
          exact hclean
        · have hdx' : is_df_overwrite node = false := by simpa using hdx
          obtain ⟨lib, h1, h2, h3, hclean⟩ := ih deps0 ⟨node₀, hrest, hoff⟩
          refine ⟨lib, h1, h2, h3, ?_⟩
          rw [clean_cons_keep custom deps0 node rest hi' hdx', hclean]
          simp [Except.map]

/-- C2 (witness): the amended theorem applied to the script "import os". -/
theorem c2_disallowed_import_witness :
    (∃ node ∈ [Stmt.imprt [⟨"os", Option.none⟩]], offendingImport [] node = true) ∧
    ∃ lib, lib ≠ "pandas" ∧ lib ∉ WHITELISTED_LIBRARIES ++ ([] : List String) ∧
      lib ∉ WHITELISTED_BUILTINS ∧
      clean_code_stmts [] [] [Stmt.imprt [⟨"os", Option.none⟩]] =
        ([], .error (.badImport lib)) :=
  ⟨by decide,
    c2_disallowed_import_raises_unless_builtin [] [] [Stmt.imprt [⟨"os", Option.none⟩]]
      (by decide)⟩

/-- C3 (counterexample): for a script importing two whitelisted libraries,
the resulting dependency list holds only the entry of the second import
(each _check_imports call clears the list first), not one entry per
whitelisted import; and sanitizing an import-free script leaves a stale
entry from a previous pass in the list instead of recomputing it from
scratch.  This refutes both halves of the claim. -/
theorem c3_counterexample :
    (clean_code_stmts [] []
        [.imprt [⟨"numpy", Option.none⟩], .imprt [⟨"matplotlib", Option.none⟩]] =
      ([⟨"matplotlib", "matplotlib", "matplotlib"⟩], .ok []) ∧
     ([⟨"matplotlib", "matplotlib", "matplotlib"⟩] : List Dep) ≠
      [⟨"numpy", "numpy", "numpy"⟩, ⟨"matplotlib", "matplotlib", "matplotlib"⟩]) ∧
    (clean_code_stmts [] [⟨"numpy", "numpy", "numpy"⟩] [.other "x = 1"] =
      ([⟨"numpy", "numpy", "numpy"⟩], .ok [.other "x = 1"]) ∧
     ([⟨"numpy", "numpy", "numpy"⟩] : List Dep) ≠ []) := by
  refine ⟨⟨by decide, by decide⟩, ⟨by decide, by decide⟩⟩

/-- C3 (amended): after a successful sanitization pass the dependency list
equals the contribution of the last import statement of the script (one
entry per name imported by it; empty for a pandas or builtin-named import),
or keeps its previous value unchanged when the script has no import
statements — entries of earlier imports of the same script do not survive,
and with an import-free script stale entries of a previous pass persist. -/
theorem c3_deps_are_last_import_only (custom : List String)
    (deps0 deps' : List Dep) (stmts out : List Stmt)
    (h : clean_code_stmts custom deps0 stmts = (deps', .ok out)) :
    deps' = lastImportDeps custom deps0 stmts := by
  induction stmts generalizing deps0 out with
  | nil =>
    have h' : ((deps0 : List Dep), (Except.ok [] : Except PyError (List Stmt))) =
        (deps', .ok out) := h
    rw [lastImportDeps]
    exact (congrArg Prod.fst h').symm
  | cons node rest ih =>
    by_cases hi : isImportStmt node = true
    · cases he : (check_imports custom node).2 with
      | some e =>
        rw [clean_cons_import_error custom deps0 node rest _ hi he] at h
        exact absurd (congrArg Prod.snd h) (by simp)
      | none =>
        rw [clean_cons_import_ok custom deps0 node rest hi he] at h
        rw [lastImportDeps, if_pos hi]
        exact ih _ _ h
    · have hi' : isImportStmt node = false := by simpa using hi
      have hlast : lastImportDeps custom deps0 (node :: rest) =
          lastImportDeps custom deps0 rest := by
        rw [lastImportDeps, if_neg (by simp [hi'])]
      by_cases hdx : is_df_overwrite node = true
      · rw [clean_cons_drop custom deps0 node rest hi' hdx] at h
        rw [hlast]
        exact ih _ _ h
      · have hdx' : is_df_overwrite node = false := by simpa using hdx
        rw [clean_cons_keep custom deps0 node rest hi' hdx'] at h
        rw [hlast]
        cases hr : (clean_code_stmts custom deps0 rest).2 with
        | error e =>
          rw [hr] at h
          exact absurd (congrArg Prod.snd h) (by simp [Except.map])
        | ok body2 =>
          have hfst : (clean_code_stmts custom deps0 rest).1 = deps' :=
            congrArg Prod.fst h
          have hcr : clean_code_stmts custom deps0 rest = (deps', .ok body2) := by
            rw [← hfst, ← hr]
          exact ih deps0 body2 hcr

/-- C3 (witness): the amended theorem applied to the two-import script. -/
theorem c3_deps_witness :
    clean_code_stmts [] []
        [Stmt.imprt [⟨"numpy", Option.none⟩], Stmt.imprt [⟨"matplotlib", Option.none⟩]] =
      ([⟨"matplotlib", "matplotlib", "matplotlib"⟩], .ok []) ∧
    ([⟨"matplotlib", "matplotlib", "matplotlib"⟩] : List Dep) =
      lastImportDeps [] []
        [Stmt.imprt [⟨"numpy", Option.none⟩], Stmt.imprt [⟨"matplotlib", Option.none⟩]] :=
  ⟨by decide,
    c3_deps_are_last_import_only [] [] [⟨"matplotlib", "matplotlib", "matplotlib"⟩]
      [Stmt.imprt [⟨"numpy", Option.none⟩], Stmt.imprt [⟨"matplotlib", Option.none⟩]] []
      (by decide)⟩

/-- C5 (witness): the confirmed theorem applied to the concrete always-failing
run. -/
theorem c5_budget_witness :
    cxO.parse "df.foo()" = .ok [.other "df.foo()"] ∧
    clean_code_stmts [] [] [.other "df.foo()"] = ([], .ok [.other "df.foo()"]) ∧
    ((run_code cxO cxInstr [] [] 3 "df.foo()" (.single (.obj "df")) true).corrections.length ≤ 3 ∧
      ∃ v, (run_code cxO cxInstr [] [] 3 "df.foo()" (.single (.obj "df")) true).result = .ok v) :=
  ⟨rfl, rfl,
    c5_budget_bounds_corrections_and_exhaustion_is_silent cxO cxInstr [] []
      "df.foo()" (.single (.obj "df")) [.other "df.foo()"] [.other "df.foo()"] []
      rfl rfl
      (fun s env => by
        show ((cxExec s env).2.2).isSome = true
        unfold cxExec
        split <;> rfl)⟩

/-- C6 (counterexample): a top-level assignment to df77 IS stripped by the
sanitizer — "df77" has two digits after "df", which the pattern df\d{0,2}$
accepts.  This refutes the claim that df77 is not stripped. -/
theorem c6_counterexample :
    clean_code_stmts [] [] [.assign (.name "df77") [] "payload"] = ([], .ok []) ∧
    matchesDfPattern "df77" = true := by
  refine ⟨by decide, by decide⟩

/-- C6 (amended): top-level assignments whose single target is the bare name
df, df7 or df77 are all absent from the sanitized output (the reserved
pattern allows up to two digits, and two digits is within the bound), while
an assignment to df777 — three digits — is kept. -/
theorem c6_reserved_names_up_to_two_digits (rhs : String) (custom : List String)
    (deps0 : List Dep) :
    clean_code_stmts custom deps0 [.assign (.name "df") [] rhs] = (deps0, .ok []) ∧
    clean_code_stmts custom deps0 [.assign (.name "df7") [] rhs] = (deps0, .ok []) ∧
    clean_code_stmts custom deps0 [.assign (.name "df77") [] rhs] = (deps0, .ok []) ∧
    clean_code_stmts custom deps0 [.assign (.name "df777") [] rhs] =
      (deps0, .ok [.assign (.name "df777") [] rhs]) := by
  refine ⟨?_, ?_, ?_, ?_⟩
  · rw [clean_cons_drop custom deps0 (.assign (.name "df") [] rhs) [] rfl rfl]
    rfl
  · rw [clean_cons_drop custom deps0 (.assign (.name "df7") [] rhs) [] rfl rfl]
    rfl
  · rw [clean_cons_drop custom deps0 (.assign (.name "df77") [] rhs) [] rfl rfl]
    rfl
  · rw [clean_cons_keep custom deps0 (.assign (.name "df777") [] rhs) [] rfl rfl]
    rfl

/-- C10 (confirmed): whether the sanitizer drops a top-level assignment
depends only on its first target — the statement is dropped exactly when
the first target is a bare name matching the reserved pattern, whatever the
remaining targets and the right-hand side are; in particular
x = df = e is kept, df = x = e is dropped, and the augmented assignment
df += e is kept. -/
theorem c10_drop_depends_only_on_first_target (t : Target) (ts : List Target)
    (rhs : String) (custom : List String) (deps0 : List Dep) :
    clean_code_stmts custom deps0 [.assign t ts rhs] =
      (deps0, .ok (if firstTargetReserved t then [] else [.assign t ts rhs])) ∧
    (firstTargetReserved t = true ↔
      ∃ id, t = .name id ∧ matchesDfPattern id = true) ∧
    clean_code_stmts custom deps0 [.assign (.name "x") [.name "df"] rhs] =
      (deps0, .ok [.assign (.name "x") [.name "df"] rhs]) ∧
    clean_code_stmts custom deps0 [.assign (.name "df") [.name "x"] rhs] =
      (deps0, .ok []) ∧
    clean_code_stmts custom deps0 [.augAssign "df" rhs] =
      (deps0, .ok [.augAssign "df" rhs]) := by
  have hio : is_df_overwrite (Stmt.assign t ts rhs) = firstTargetReserved t := by
    cases t <;> rfl
  refine ⟨?_, ?_, ?_, ?_, ?_⟩
  · by_cases hf : firstTargetReserved t = true
    · rw [if_pos hf,
        clean_cons_drop custom deps0 (.assign t ts rhs) [] (by cases t <;> rfl)
          (hio.trans hf)]
      rfl
    · have hf' : firstTargetReserved t = false := by simpa using hf
      rw [if_neg hf,
        clean_cons_keep custom deps0 (.assign t ts rhs) [] (by cases t <;> rfl)
          (hio.trans hf')]
      rfl
  · constructor
    · intro hf
      cases t with
      | name id => exact ⟨id, rfl, hf⟩
      | nonName s => simp [firstTargetReserved] at hf
    · rintro ⟨id, rfl, hm⟩
      exact hm
  · rw [clean_cons_keep custom deps0 (.assign (.name "x") [.name "df"] rhs) [] rfl rfl]
    rfl
  · rw [clean_cons_drop custom deps0 (.assign (.name "df") [.name "x"] rhs) [] rfl rfl]
    rfl
  · rw [clean_cons_keep custom deps0 (.augAssign "df" rhs) [] rfl rfl]
    rfl

/-- C9 (confirmed): sanitizing a script that is already sanitized — it
parses to statements none of which is an import or a reserved-name
assignment, and its text is in the unparser's normal form — returns the
script text unchanged and leaves the dependency field untouched.  (The
parser and unparser are the external ast/astor collaborators; the
normal-form hypothesis states that the unparser reproduces the given
text, which holds for text the unparser itself produced.) -/
theorem c9_sanitize_idempotent (O : Oracle) (custom : List String)
    (deps : List Dep) (code : String) (stmts : List Stmt)
    (hp : O.parse code = .ok stmts)
    (h1 : ∀ s ∈ stmts, isImportStmt s = false)
    (h2 : ∀ s ∈ stmts, is_df_overwrite s = false)
    (hts : O.toSource stmts = code) :
    clean_code O custom deps code = .ok (code, deps) := by
  simp [clean_code, hp, clean_code_stmts_id custom deps stmts h1 h2, hts]

/-- C9 (witness): the confirmed theorem applied to the one-statement script
"df.foo()". -/
theorem c9_sanitize_idempotent_witness :
    cxO.parse "df.foo()" = .ok [.other "df.foo()"] ∧
    cxO.toSource [.other "df.foo()"] = "df.foo()" ∧
    clean_code cxO [] [] "df.foo()" = .ok ("df.foo()", []) :=
  ⟨rfl, rfl,
    c9_sanitize_idempotent cxO [] [] "df.foo()" [.other "df.foo()"]
      rfl (by decide) (by decide) rfl⟩

/-- C7 (confirmed): when the first attempt executes successfully, result
extraction takes the last non-empty line of the executed (cleaned) script;
a line of the form print(expression) is unwrapped to the inner expression,
which is evaluated against the final environment: if evaluation yields a
value, that value is returned (for print(x + y) with x = 2 and y = 3 bound,
the value 5, not the captured console text); only if evaluation raises is
the captured console output returned instead. -/
theorem c7_extraction_last_line_print_unwrap (O : Oracle)
    (instr : OriginalInstructions) (custom : List String) (deps0 : List Dep)
    (n : Nat) (code : String) (df : DataInput) (ec : Bool)
    (tree body : List Stmt) (deps : List Dep) (env1 : Env) (printed : String)
    (hp : O.parse code = .ok tree)
    (hcc : clean_code_stmts custom deps0 tree = (deps, .ok body))
    (hx : O.exec (O.toSource body) (buildEnvironment O.loader deps df) =
      (env1, printed, Option.none))
    (hl : lastLine (O.toSource body) = "print(x + y)") :
    (∀ v, O.eval "x + y" env1 = .ok v →
      (run_code O instr custom deps0 (n + 1) code df ec).result = .ok v) ∧
    (∀ e2, O.eval "x + y" env1 = .error e2 →
      (run_code O instr custom deps0 (n + 1) code df ec).result =
        .ok (.str (run_code O instr custom deps0 (n + 1) code df ec).captured)) := by
  have hm : matchPrintCall "print(x + y)" = some "x + y" := by decide
  simp only [run_code, hcc, hp, runLoop, hx, hl, hm, Option.getD_some]
  constructor
  · intro v hv
    simp [hv]
  · intro e2 he2
    simp [he2]

/-- C7 (witness): the confirmed theorem applied to the concrete successful
run, whose cleaned script ends in print(x + y) with x = 2 and y = 3 bound by
execution: the result is the value 5. -/
theorem c7_extraction_witness :
    okO.parse "SRC" = .ok [.other "x = 2", .other "y = 3", .other "print(x + y)"] ∧
    lastLine (okO.toSource [.other "x = 2", .other "y = 3", .other "print(x + y)"]) =
      "print(x + y)" ∧
    okO.eval "x + y"
      (buildEnvironment cxLoader [] (.single (.obj "df")) ++
        [("x", Value.int 2), ("y", Value.int 3)]) = .ok (.int 5) ∧
    (run_code okO cxInstr [] [] 3 "SRC" (.single (.obj "df")) true).result =
      .ok (.int 5) :=
  ⟨rfl, by decide, by decide,
    (c7_extraction_last_line_print_unwrap okO cxInstr [] [] 2 "SRC"
      (.single (.obj "df")) true
      [.other "x = 2", .other "y = 3", .other "print(x + y)"]
      [.other "x = 2", .other "y = 3", .other "print(x + y)"] []
      (buildEnvironment cxLoader [] (.single (.obj "df")) ++
        [("x", Value.int 2), ("y", Value.int 3)]) "5\n"
      rfl rfl (by decide) (by decide)).1 (.int 5) (by decide)⟩

end PandasAI
